import Mathlib

/-!
Shallow embedding of the OWASP Agentic Security Dataset package
(`src/__init__.py`) and proofs about its catalog-accessor operations.

Python values are modelled as follows: entry and incident dictionaries
become structures with the fields the accessors touch; the module-global
`_dataset_cache` is passed and returned explicitly; file existence and the
generator collaborator live in an explicit environment; functions that
`raise` return `Except`.
-/

/-- The `ASI_IDS` constant (source lines 111-114). -/
def ASI_IDS : List String :=
  ["ASI01", "ASI02", "ASI03", "ASI04", "ASI05",
   "ASI06", "ASI07", "ASI08", "ASI09", "ASI10"]

/-- The `COMPONENT_THREAT_MAP` constant (source lines 116-129), kept as an
insertion-ordered association list with the dict's unique keys. -/
def COMPONENT_THREAT_MAP : List (String × List String) :=
  [("llm_agent", ["ASI01", "ASI05", "ASI06", "ASI10"]),
   ("tool_integration", ["ASI02", "ASI04"]),
   ("multi_agent", ["ASI07", "ASI08"]),
   ("user_interface", ["ASI09"]),
   ("identity_system", ["ASI03"]),
   ("memory_store", ["ASI06"]),
   ("code_executor", ["ASI05"]),
   ("orchestrator", ["ASI01", "ASI08", "ASI10"]),
   ("external_api", ["ASI02", "ASI04"]),
   ("communication_layer", ["ASI07"]),
   ("supply_chain", ["ASI04"]),
   ("rag_system", ["ASI01", "ASI06"])]

/-- One `attack_scenarios` element: a `{name, description}` dictionary. -/
structure Scenario where
  name : String
  description : String
deriving Repr, DecidableEq

/-- One ASI entry dictionary, with the fields the accessors read. -/
structure Entry where
  id : String
  title : String
  mitigations : List String
  attack_scenarios : List Scenario
  related_llm_entries : List String
deriving Repr, DecidableEq

/-- One incident dictionary from the exploits tracker.  `related_asi` is
optional because the code reads it with `incident.get("related_asi", [])`. -/
structure Incident where
  name : String
  date : String
  description : String
  related_asi : Option (List String)
  source : String
deriving Repr, DecidableEq

/-- The `exploits_tracker` object of the dataset. -/
structure ExploitsTracker where
  incidents : List Incident
deriving Repr, DecidableEq

/-- The root dataset dictionary, with the fields the accessors read. -/
structure Dataset where
  entries : List Entry
  exploits_tracker : ExploitsTracker
  metadata_version : String
deriving Repr, DecidableEq

/-- Environment for `load_dataset`: which paths hold a parseable dataset
file, and what `owasp_agentic_parser.create_owasp_agentic_top10()` returns. -/
structure Env where
  files : String → Option Dataset
  generated : Dataset

/-- The default dataset path `_get_data_path() / "owasp_agentic_top10_full.json"`
(lines 135-137, 174). -/
def default_data_path : String := "data/owasp_agentic_top10_full.json"

/-- The non-cached load path of `load_dataset` (lines 171-182): resolve the
path, read the file when it exists, otherwise invoke the generator. -/
def load_path (env : Env) (filepath : Option String) : Dataset :=
  let path := match filepath with
    | some p => p
    | none => default_data_path
  match env.files path with
  | some data => data
  | none => env.generated

/-- Embedding of `load_dataset(filepath, use_cache)` (lines 146-187), with the module
global `_dataset_cache` passed in and the updated cache returned. -/
def load_dataset (env : Env) (filepath : Option String) (use_cache : Bool)
    (cache : Option Dataset) : Dataset × Option Dataset :=
  match use_cache, cache with
  | true, some d => (d, some d)
  | _, _ =>
    let data := load_path env filepath
    (data, if use_cache then some data else cache)

/-- Embedding of `clear_cache()` (lines 531-534): reset `_dataset_cache` to `None`. -/
def clear_cache (_cache : Option Dataset) : Option Dataset := none

/-- Embedding of `load_entries()` with no explicit path (lines 211-212): delegate to
`load_dataset()` and project its `entries` field. -/
def load_entries_default (env : Env) (cache : Option Dataset) :
    List Entry × Option Dataset :=
  let r := load_dataset env none true cache
  (r.1.entries, r.2)

/-- Embedding of `get_entry(asi_id)` (lines 237-257) over an explicit loaded entry list:
upper-case the id, then first-match linear scan. -/
def get_entry (asi_id : String) (entries : List Entry) : Option Entry :=
  let u := asi_id.toUpper
  entries.find? (fun e => e.id == u)

/-- Embedding of `get_mitigations(asi_id)` (lines 351-367). -/
def get_mitigations (asi_id : String) (entries : List Entry) :
    Except String (List String) :=
  match get_entry asi_id entries with
  | none => .error ("Entry not found: " ++ asi_id)
  | some e => .ok e.mitigations

/-- Embedding of `get_attack_scenarios(asi_id)` (lines 370-386). -/
def get_attack_scenarios (asi_id : String) (entries : List Entry) :
    Except String (List Scenario) :=
  match get_entry asi_id entries with
  | none => .error ("Entry not found: " ++ asi_id)
  | some e => .ok e.attack_scenarios

/-- Embedding of `get_related_llm_entries(asi_id)` (lines 389-407). -/
def get_related_llm_entries (asi_id : String) (entries : List Entry) :
    Except String (List String) :=
  match get_entry asi_id entries with
  | none => .error ("Entry not found: " ++ asi_id)
  | some e => .ok e.related_llm_entries

/-- Python's `sorted` builtin on a list of strings: stable ascending sort
(insertion sort), used for the error message of `get_threats_for_component`. -/
def insert_sorted (x : String) : List String → List String
  | [] => [x]
  | y :: ys => if x ≤ y then x :: y :: ys else y :: insert_sorted x ys

/-- Python `sorted(l)` for a list of strings. -/
def py_sorted (l : List String) : List String := l.foldr insert_sorted []

/-- The joined key list `", ".join(sorted(COMPONENT_THREAT_MAP.keys()))` (line 334). -/
def valid_types_msg : String :=
  String.intercalate ", " (py_sorted (COMPONENT_THREAT_MAP.map Prod.fst))

/-- The `ValueError` message of `get_threats_for_component` (lines 335-338)
for a lower-cased component type `ct`. -/
def unknown_component_msg (ct : String) : String :=
  "Unknown component type: \x27" ++ ct ++ "\x27. Valid types: " ++ valid_types_msg

/-- Embedding of `get_threats_for_component(component_type, data)` (lines 309-348), with
the loading environment explicit for the `data=None` branch. -/
def get_threats_for_component (component_type : String) (data : Option Dataset)
    (env : Env) (cache : Option Dataset) : Except String (List Entry) :=
  let ct := component_type.toLower
  match COMPONENT_THREAT_MAP.find? (fun kv => kv.1 == ct) with
  | none => .error (unknown_component_msg ct)
  | some kv =>
    let relevant_ids := kv.2
    let d := match data with
      | some d0 => d0
      | none => (load_dataset env none true cache).1
    .ok (d.entries.filter (fun e => relevant_ids.contains e.id))

/-- The dict comprehension of `get_asi_to_llm_mapping` (lines 410-426), kept
as the ordered list of key-value assignments it performs. -/
def get_asi_to_llm_mapping (entries : List Entry) : List (String × List String) :=
  entries.map (fun e => (e.id, e.related_llm_entries))

/-- Python dict subscript `d[k]` over an assignment list: the latest
assignment to a key wins (dict overwrite semantics); `none` models `KeyError`. -/
def dict_getitem (pairs : List (String × List String)) (k : String) :
    Option (List String) :=
  (pairs.reverse.find? (fun kv => kv.1 == k)).map Prod.snd

/-- Embedding of `get_incidents()` (lines 440-454) over an explicit dataset. -/
def get_incidents (data : Dataset) : List Incident :=
  data.exploits_tracker.incidents

/-- The read `incident.get("related_asi", [])` (line 471). -/
def incident_related_asi (i : Incident) : List String := i.related_asi.getD []

/-- Embedding of `get_incidents_by_asi(asi_id)` (lines 457-472) over an explicit dataset. -/
def get_incidents_by_asi (asi_id : String) (data : Dataset) : List Incident :=
  let u := asi_id.toUpper
  (get_incidents data).filter (fun i => (incident_related_asi i).contains u)

/-- Parsed structured-text (JSON) values, for the explicit-path branch of
`load_entries`. -/
inductive Json where
  | null : Json
  | bool (b : Bool) : Json
  | num (n : Int) : Json
  | str (s : String) : Json
  | arr (items : List Json) : Json
  | obj (fields : List (String × Json)) : Json
deriving Repr

/-- Python `dict.get(key, default)` on a parsed object's field list. -/
def json_get (fields : List (String × Json)) (key : String) (dflt : Json) : Json :=
  match fields.find? (fun kv => kv.1 == key) with
  | some kv => kv.2
  | none => dflt

/-- The explicit-path branch of `load_entries` (lines 205-209): `parsed` is
the result of `json.load`, and the code runs `data.get("entries", data)`.
`.get` is a `dict` method, so this succeeds only when the top level of the
file is an object; any other top level raises `AttributeError`. -/
def load_entries_with_path (parsed : Json) : Except String Json :=
  match parsed with
  | .obj fields => .ok (json_get fields "entries" (.obj fields))
  | _ => .error "AttributeError: the parsed value has no .get method"

/-- A store of string-list objects addressed by position: the mutable-list
heap needed to state the copy semantics of `list_entry_ids`. -/
structure Heap where
  cells : List (List String)
deriving Repr, DecidableEq

/-- Dereference the list object at address `a`. -/
def Heap.read (h : Heap) (a : Nat) : List String := h.cells.getD a []

/-- Allocate a fresh list object, returning its address. -/
def Heap.alloc (h : Heap) (v : List String) : Nat × Heap :=
  (h.cells.length, ⟨h.cells ++ [v]⟩)

/-- In-place mutation of the list object at address `a`. -/
def Heap.write (h : Heap) (a : Nat) (v : List String) : Heap :=
  ⟨h.cells.set a v⟩

/-- Address of the module-level `ASI_IDS` list object. -/
def asi_ids_addr : Nat := 0

/-- Embedding of `list_entry_ids()` (lines 283-290): `return ASI_IDS.copy()` — allocate a
fresh list object holding the same elements as the `ASI_IDS` object. -/
def list_entry_ids (h : Heap) : Nat × Heap :=
  h.alloc (h.read asi_ids_addr)

/-- Process state touched by `generate_all_formats`: the current working
directory, the directories that exist, and the files written so far. -/
structure ProcState where
  cwd : String
  dirs : List String
  files_written : List String
deriving Repr, DecidableEq

/-- The generation collaborator `owasp_agentic_parser.main()`: the relative
file names it writes into the current working directory before it either
returns or raises. -/
structure GenProvider where
  writes : List String
  main_result : Except String Unit
deriving Repr

/-- Path joining, `Path` division `a / b`. -/
def path_join (a b : String) : String := a ++ "/" ++ b

/-- The 8 fixed output names of `generate_all_formats` (lines 505-514). -/
def output_format_names : List (String × String) :=
  [("full_json", "owasp_agentic_top10_full.json"),
   ("full_yaml", "owasp_agentic_top10_full.yaml"),
   ("entries_json", "owasp_agentic_top10_entries.json"),
   ("entries_yaml", "owasp_agentic_top10_entries.yaml"),
   ("mappings_json", "owasp_agentic_top10_mappings.json"),
   ("mappings_yaml", "owasp_agentic_top10_mappings.yaml"),
   ("simplified_json", "owasp_agentic_top10_simplified.json"),
   ("simplified_yaml", "owasp_agentic_top10_simplified.yaml")]

/-- Embedding of `generate_all_formats(output_dir)` (lines 475-514): `mkdir(parents=True,
exist_ok=True)`, remember `os.getcwd()`, `os.chdir(output_path)`, run the
provider inside `try`, and restore the working directory in `finally` on
both the return path and the raise path. -/
def generate_all_formats (provider : GenProvider) (output_dir : String)
    (s : ProcState) : Except String (List (String × String)) × ProcState :=
  let output_path := output_dir
  let s1 : ProcState := { s with dirs := s.dirs ++ [output_path] }
  let original_dir := s1.cwd
  let s2 : ProcState := { s1 with cwd := output_path }
  let s3 : ProcState :=
    { s2 with files_written :=
        s2.files_written ++ provider.writes.map (path_join s2.cwd) }
  match provider.main_result with
  | .error e => (.error e, { s3 with cwd := original_dir })
  | .ok _ =>
    (.ok (output_format_names.map (fun kv => (kv.1, path_join output_path kv.2))),
     { s3 with cwd := original_dir })

/- Sample data used to instantiate the contracts on concrete inputs. -/

/-- A sample ASI01 entry. -/
def sample_e1 : Entry :=
  ⟨"ASI01", "Agent Goal Hijack", ["m1a", "m1b"], [⟨"s1", "d1"⟩], ["LLM01"]⟩

/-- A sample ASI02 entry. -/
def sample_e2 : Entry := ⟨"ASI02", "Tool Misuse", ["m2"], [], ["LLM02"]⟩

/-- A sample ASI05 entry. -/
def sample_e5 : Entry := ⟨"ASI05", "Unexpected Code Execution", ["m5"], [], ["LLM05"]⟩

/-- A small loaded entry list (not in canonical order on purpose). -/
def sample_entries : List Entry := [sample_e2, sample_e1, sample_e5]

/-- A full 10-entry list whose ids are the canonical ids in canonical order. -/
def canonical_entries : List Entry :=
  ASI_IDS.map (fun s => ⟨s, "title " ++ s, ["mit " ++ s], [], ["llm " ++ s]⟩)

/-- A sample incident linked to ASI06 and ASI01. -/
def sample_inc1 : Incident :=
  ⟨"EchoLeak", "2025-06", "zero-click exfiltration", some ["ASI06", "ASI01"], "src1"⟩

/-- A sample incident with no `related_asi` field. -/
def sample_inc2 : Incident := ⟨"Other", "2025-07", "unrelated", none, "src2"⟩

/-- A sample dataset over the canonical entries and the two incidents. -/
def sample_dataset : Dataset :=
  ⟨canonical_entries, ⟨[sample_inc1, sample_inc2]⟩, "2026"⟩

/-- A sample environment: no dataset file on disk, so loading generates. -/
def sample_env : Env := ⟨fun _ => none, sample_dataset⟩

/-- An entry with id "ASI01" and one related list. -/
def dup_first : Entry := ⟨"ASI01", "first", [], [], ["LLM-A"]⟩

/-- A second entry with the same id "ASI01" and a different related list. -/
def dup_second : Entry := ⟨"ASI01", "second", [], [], ["LLM-B"]⟩

/- Character-level facts about Python-style upper-casing, needed for the
case-insensitivity statements. -/

theorem char_ofNat_sub32_toNat (n : Nat) (h1 : 97 ≤ n) (h2 : n ≤ 122) :
    (Char.ofNat (n - 32)).toNat = n - 32 := by
  rw [Char.ofNat, dif_pos]
  · rfl
  · exact Or.inl (by omega)

theorem char_toUpper_toUpper (c : Char) : c.toUpper.toUpper = c.toUpper := by
  simp only [Char.toUpper]
  split
  · next h =>
    rw [if_neg]
    rw [char_ofNat_sub32_toNat c.toNat h.1 h.2]
    omega
  · rfl

theorem string_toUpper_toUpper (s : String) : s.toUpper.toUpper = s.toUpper := by
  simp only [String.toUpper, String.map_eq, List.map_map]
  exact congrArg String.mk (List.map_congr_left (fun c _ => char_toUpper_toUpper c))

/-- Claim C6: `clear_cache` empties the cache, is idempotent and total; a
cache hit under `use_cache` returns the cached dataset unchanged (the result
does not depend on the environment, i.e. nothing is re-read or regenerated);
and after `clear_cache` the next `load_dataset` re-executes the load path,
returning and caching `load_path env fp` whatever was cached before. -/
theorem c6_cache_state_machine (env : Env) (fp : Option String)
    (c : Option Dataset) (d : Dataset) :
    (clear_cache c = none) ∧
    (clear_cache (clear_cache c) = clear_cache c) ∧
    (load_dataset env fp true (some d) = (d, some d)) ∧
    ((load_dataset env fp true (clear_cache c)).1 = load_path env fp) ∧
    ((load_dataset env fp true (clear_cache c)).2 = some (load_path env fp)) := by
  refine ⟨rfl, rfl, rfl, ?_, ?_⟩ <;> simp [clear_cache, load_dataset]

/-- Claim C10: `load_dataset` with `use_cache=False` leaves the cache exactly
as it was (it neither stores its result nor discards a cached dataset), so a
later cached load still returns the previously cached dataset. -/
theorem c10_use_cache_false_frame (env env2 : Env) (fp fp2 : Option String)
    (c : Option Dataset) :
    ((load_dataset env fp false c).2 = c) ∧
    (∀ d, c = some d →
      load_dataset env2 fp2 true (load_dataset env fp false c).2 = (d, some d)) := by
  cases c <;> simp [load_dataset]

/-- Claim C10 witness: a concrete cached dataset survives an uncached load. -/
theorem c10_use_cache_false_frame_witness :
    load_dataset sample_env none true
      (load_dataset ⟨fun _ => none, ⟨[], ⟨[]⟩, "x"⟩⟩ (some "p") false
        (some sample_dataset)).2 = (sample_dataset, some sample_dataset) :=
  (c10_use_cache_false_frame ⟨fun _ => none, ⟨[], ⟨[]⟩, "x"⟩⟩ sample_env
    (some "p") none (some sample_dataset)).2 sample_dataset rfl

/-- Claim C7: `generate_all_formats` restores the prior working directory on
every exit path, including when the provider raises; when the provider
returns it yields the 8 fixed-named paths under the output directory — a
value independent of what the provider actually wrote; and when the provider
raises, the error propagates (no path mapping is returned). -/
theorem c7_generate_all_formats_contract (provider : GenProvider)
    (output_dir : String) (s : ProcState) :
    ((generate_all_formats provider output_dir s).2.cwd = s.cwd) ∧
    (provider.main_result = .ok () →
      (generate_all_formats provider output_dir s).1 =
        .ok (output_format_names.map (fun kv => (kv.1, path_join output_dir kv.2)))) ∧
    (∀ e, provider.main_result = .error e →
      (generate_all_formats provider output_dir s).1 = .error e) := by
  refine ⟨?_, ?_, ?_⟩ <;>
    rcases hp : provider.main_result with e | u <;>
      simp [generate_all_formats, hp]

/-- Claim C7 witness: a faulting provider propagates its error while the
working directory comes back to its prior value. -/
theorem c7_generate_all_formats_contract_witness :
    (generate_all_formats ⟨["f.json"], .error "boom"⟩ "out" ⟨"/home", [], []⟩).2.cwd
      = "/home" ∧
    (generate_all_formats ⟨["f.json"], .error "boom"⟩ "out" ⟨"/home", [], []⟩).1
      = .error "boom" ∧
    (generate_all_formats ⟨[], .ok ()⟩ "out" ⟨"/home", [], []⟩).1
      = .ok (output_format_names.map (fun kv => (kv.1, path_join "out" kv.2))) :=
  ⟨(c7_generate_all_formats_contract ⟨["f.json"], .error "boom"⟩ "out" ⟨"/home", [], []⟩).1,
   (c7_generate_all_formats_contract ⟨["f.json"], .error "boom"⟩ "out" ⟨"/home", [], []⟩).2.2
     "boom" rfl,
   (c7_generate_all_formats_contract ⟨[], .ok ()⟩ "out" ⟨"/home", [], []⟩).2.1 rfl⟩

/-- Reading back a freshly allocated object yields the allocated value. -/
theorem Heap.read_alloc (h : Heap) (v : List String) :
    (h.alloc v).2.read (h.alloc v).1 = v := by
  simp [Heap.alloc, Heap.read, List.getD_eq_getElem?_getD, List.getElem?_append_right]

/-- Allocation does not change the object stored at an existing address. -/
theorem Heap.read_alloc_old (h : Heap) (v : List String) (a : Nat)
    (ha : a < h.cells.length) :
    (h.alloc v).2.read a = h.read a := by
  simp [Heap.alloc, Heap.read, List.getD_eq_getElem?_getD, List.getElem?_append, ha]

/-- Writing one address does not change the object at another. -/
theorem Heap.read_write_ne (h : Heap) (a b : Nat) (v : List String)
    (hne : a ≠ b) : (h.write a v).read b = h.read b := by
  simp [Heap.write, Heap.read, List.getD_eq_getElem?_getD, List.getElem?_set_ne hne]

/-- Claim C9: whenever the `ASI_IDS` object holds the canonical 10-id list,
`list_entry_ids` returns a fresh object (a different address) holding that
same list in the same order; mutating the returned object leaves the
`ASI_IDS` object untouched, and a subsequent call still returns the
canonical list.  The heap is the only input, so the result is independent
of any loaded dataset. -/
theorem c9_list_entry_ids_copy (h : Heap)
    (hh : h.read asi_ids_addr = ASI_IDS) :
    ((list_entry_ids h).2.read (list_entry_ids h).1 = ASI_IDS) ∧
    ((list_entry_ids h).1 ≠ asi_ids_addr) ∧
    (∀ v, ((list_entry_ids h).2.write (list_entry_ids h).1 v).read asi_ids_addr
      = ASI_IDS) ∧
    (∀ v,
      (list_entry_ids ((list_entry_ids h).2.write (list_entry_ids h).1 v)).2.read
        (list_entry_ids ((list_entry_ids h).2.write (list_entry_ids h).1 v)).1
      = ASI_IDS) := by
  have hne : h.cells ≠ [] := by
    intro hnil
    rw [Heap.read, hnil] at hh
    simp [ASI_IDS] at hh
  have hpos : 0 < h.cells.length := List.length_pos.mpr hne
  have haddr : (list_entry_ids h).1 = h.cells.length := rfl
  have h1 : (list_entry_ids h).2.read (list_entry_ids h).1 = ASI_IDS := by
    rw [list_entry_ids, Heap.read_alloc, hh]
  have h2 : (list_entry_ids h).1 ≠ asi_ids_addr := by
    rw [haddr, asi_ids_addr]
    omega
  have h3 : ∀ v,
      ((list_entry_ids h).2.write (list_entry_ids h).1 v).read asi_ids_addr
        = ASI_IDS := by
    intro v
    rw [Heap.read_write_ne _ _ _ _ h2]
    rw [list_entry_ids, Heap.read_alloc_old _ _ _ ]
    · exact hh
    · exact hpos
  refine ⟨h1, h2, h3, ?_⟩
  intro v
  rw [list_entry_ids, Heap.read_alloc]
  exact h3 v

/-- Claim C9 witness: on a concrete heap holding `ASI_IDS` at its address,
the returned object is fresh and mutation-isolated. -/
theorem c9_list_entry_ids_copy_witness :
    ((list_entry_ids ⟨[ASI_IDS]⟩).2.read (list_entry_ids ⟨[ASI_IDS]⟩).1 = ASI_IDS) ∧
    ((list_entry_ids ⟨[ASI_IDS]⟩).1 ≠ asi_ids_addr) ∧
    (((list_entry_ids ⟨[ASI_IDS]⟩).2.write (list_entry_ids ⟨[ASI_IDS]⟩).1
        ["corrupted"]).read asi_ids_addr = ASI_IDS) :=
  have c := c9_list_entry_ids_copy ⟨[ASI_IDS]⟩ rfl
  ⟨c.1, c.2.1, c.2.2.1 ["corrupted"]⟩

/-- Claim C2: `get_entry` upper-cases its argument and scans the entries in
order, returning the first entry whose id equals the upper-cased argument or
`none` when no entry matches (it is total — "not found" is not an error);
consequently it is case-insensitive, and any id present in the list yields a
match with that id. -/
theorem c2_get_entry_contract (s : String) (entries : List Entry) :
    (get_entry s entries = get_entry s.toUpper entries) ∧
    ((∀ e ∈ entries, e.id ≠ s.toUpper) → get_entry s entries = none) ∧
    (∀ l1 e l2, entries = l1 ++ e :: l2 → e.id = s.toUpper →
      (∀ e0 ∈ l1, e0.id ≠ s.toUpper) → get_entry s entries = some e) ∧
    (∀ e, get_entry s entries = some e → e ∈ entries ∧ e.id = s.toUpper) ∧
    ((∃ e ∈ entries, e.id = s.toUpper) →
      ∃ e, get_entry s entries = some e ∧ e.id = s.toUpper) := by
  refine ⟨?_, ?_, ?_, ?_, ?_⟩
  · rw [get_entry, get_entry, string_toUpper_toUpper]
  · intro hall
    rw [get_entry]
    exact List.find?_eq_none.mpr (fun e he => by simpa using hall e he)
  · intro l1 e l2 hsplit hid hl1
    rw [get_entry, hsplit, List.find?_append]
    have hnone : l1.find? (fun e0 => e0.id == s.toUpper) = none :=
      List.find?_eq_none.mpr (fun e0 he0 => by simpa using hl1 e0 he0)
    rw [hnone, List.find?_cons_of_pos _ (by simpa using hid)]
    rfl
  · intro e he
    rw [get_entry] at he
    exact ⟨List.mem_of_find?_eq_some he, by simpa using List.find?_some he⟩
  · intro ⟨e, he, hid⟩
    have : (entries.find? (fun e0 => e0.id == s.toUpper)).isSome :=
      List.find?_isSome.mpr ⟨e, he, by simpa using hid⟩
    rcases ho : entries.find? (fun e0 => e0.id == s.toUpper) with _ | e1
    · rw [ho] at this
      simp at this
    · exact ⟨e1, ho, by simpa using List.find?_some ho⟩

/-- Claim C2 witness: on a concrete list, `get_entry "asi01"` skips the
non-matching head and returns the ASI01 entry, as does `get_entry "ASI01"`. -/
theorem c2_get_entry_contract_witness :
    get_entry "asi01" sample_entries = some sample_e1 ∧
    get_entry "asi01" sample_entries = get_entry "ASI01" sample_entries :=
  ⟨(c2_get_entry_contract "asi01" sample_entries).2.2.1 [sample_e2] sample_e1
      [sample_e5] rfl
      (by simp [sample_e1, String.toUpper, String.map_eq])
      (by simp [sample_e2, String.toUpper, String.map_eq]),
   by
    have h := (c2_get_entry_contract "asi01" sample_entries).1
    rw [h]
    have : "asi01".toUpper = "ASI01" := by simp [String.toUpper, String.map_eq]
    rw [this]⟩

/-- Claim C3: each of `get_mitigations`, `get_attack_scenarios` and
`get_related_llm_entries` fails exactly when `get_entry` is absent — with the
"Entry not found" message — and otherwise returns the matched entry's
corresponding field. -/
theorem c3_accessors_raise_iff (s : String) (entries : List Entry) :
    ((get_mitigations s entries).isOk = (get_entry s entries).isSome) ∧
    ((get_attack_scenarios s entries).isOk = (get_entry s entries).isSome) ∧
    ((get_related_llm_entries s entries).isOk = (get_entry s entries).isSome) ∧
    (get_entry s entries = none →
      get_mitigations s entries = .error ("Entry not found: " ++ s) ∧
      get_attack_scenarios s entries = .error ("Entry not found: " ++ s) ∧
      get_related_llm_entries s entries = .error ("Entry not found: " ++ s)) ∧
    (∀ e, get_entry s entries = some e →
      get_mitigations s entries = .ok e.mitigations ∧
      get_attack_scenarios s entries = .ok e.attack_scenarios ∧
      get_related_llm_entries s entries = .ok e.related_llm_entries) := by
  rcases he : get_entry s entries with _ | e <;>
    simp [get_mitigations, get_attack_scenarios, get_related_llm_entries, he,
      Except.isOk, Except.toBool]

/-- Claim C3 witness: on a concrete list, `get_entry "ASI01"` matches and
the three accessors return that entry's fields. -/
theorem c3_accessors_raise_iff_witness :
    get_mitigations "ASI01" sample_entries = .ok ["m1a", "m1b"] ∧
    get_attack_scenarios "ASI01" sample_entries = .ok [⟨"s1", "d1"⟩] ∧
    get_related_llm_entries "ASI01" sample_entries = .ok ["LLM01"] :=
  (c3_accessors_raise_iff "ASI01" sample_entries).2.2.2.2 sample_e1
    (by simp [get_entry, sample_entries, sample_e1, sample_e2,
      String.toUpper, String.map_eq])

/-- Claim C8: `get_incidents_by_asi` upper-cases the id and returns exactly
the incidents of `get_incidents` whose `related_asi` list (defaulting to
empty) contains it, preserving their original order (the result is a
sublist); the result is empty when no incident is linked to the id. -/
theorem c8_get_incidents_by_asi_contract (s : String) (data : Dataset) :
    ((get_incidents_by_asi s data).Sublist (get_incidents data)) ∧
    (∀ i, i ∈ get_incidents_by_asi s data ↔
      i ∈ get_incidents data ∧ (incident_related_asi i).contains s.toUpper = true) ∧
    ((∀ i ∈ get_incidents data, (incident_related_asi i).contains s.toUpper = false) →
      get_incidents_by_asi s data = []) := by
  refine ⟨List.filter_sublist _, fun i => List.mem_filter, ?_⟩
  intro hnone
  exact List.filter_eq_nil_iff.mpr (fun i hi => by simpa using hnone i hi)

/-- Claim C8 witness: on the sample dataset, `"asi06"` selects exactly the
EchoLeak incident and `"asi07"` selects nothing. -/
theorem c8_get_incidents_by_asi_contract_witness :
    (sample_inc1 ∈ get_incidents_by_asi "asi06" sample_dataset ∧
      sample_inc2 ∉ get_incidents_by_asi "asi06" sample_dataset) ∧
    get_incidents_by_asi "asi07" sample_dataset = [] :=
  ⟨⟨((c8_get_incidents_by_asi_contract "asi06" sample_dataset).2.1 sample_inc1).mpr
      (by
        constructor
        · simp [get_incidents, sample_dataset]
        · simp [incident_related_asi, sample_inc1, String.toUpper, String.map_eq]),
    fun hmem => by
      have h := ((c8_get_incidents_by_asi_contract "asi06" sample_dataset).2.1
        sample_inc2).mp hmem
      simp [incident_related_asi, sample_inc2] at h⟩,
   (c8_get_incidents_by_asi_contract "asi07" sample_dataset).2.2
     (by
       intro i hi
       simp [get_incidents, sample_dataset] at hi
       rcases hi with rfl | rfl <;>
         simp [incident_related_asi, sample_inc1, sample_inc2,
           String.toUpper, String.map_eq])⟩

/-- Insertion into a sorted list is a permutation of consing. -/
theorem insert_sorted_perm (x : String) (l : List String) :
    List.Perm (insert_sorted x l) (x :: l) := by
  induction l with
  | nil => exact List.Perm.refl _
  | cons y ys ih =>
    rw [insert_sorted]
    by_cases h : x ≤ y
    · rw [if_pos h]
    · rw [if_neg h]
      exact (List.Perm.cons y ih).trans (List.Perm.swap x y ys)

/-- Python `sorted` returns a permutation of its input. -/
theorem py_sorted_perm (l : List String) : List.Perm (py_sorted l) l := by
  induction l with
  | nil => exact List.Perm.refl _
  | cons y ys ih =>
    exact (insert_sorted_perm y (py_sorted ys)).trans (List.Perm.cons y ih)

/-- Mapping ids over an id-predicate filter commutes with filtering the ids. -/
theorem map_id_filter (p : String → Bool) (l : List Entry) :
    (l.filter (fun e => p e.id)).map Entry.id = (l.map Entry.id).filter p := by
  induction l with
  | nil => rfl
  | cons e t ih => by_cases hp : p e.id <;> simp [List.filter_cons, hp, ih]

/-- Claim C1: `get_threats_for_component` lower-cases the component type;
when it is not a key of `COMPONENT_THREAT_MAP` it fails with the message
listing the valid vocabulary (the message's sorted key list is a permutation
of the map's keys); when it is a key, it returns exactly the dataset entries
whose id lies in the mapped subset, in dataset entry order (a sublist of the
entries); with no dataset given it uses the freshly loaded one; and on a
dataset with the canonical ids in canonical order, `"llm_agent"` yields ids
`["ASI01", "ASI05", "ASI06", "ASI10"]` in that order. -/
theorem c1_get_threats_for_component_contract (ct : String) (data : Dataset)
    (env : Env) (cache : Option Dataset) :
    ((COMPONENT_THREAT_MAP.map Prod.fst).contains ct.toLower = false →
      get_threats_for_component ct (some data) env cache =
        .error (unknown_component_msg ct.toLower)) ∧
    (List.Perm (py_sorted (COMPONENT_THREAT_MAP.map Prod.fst))
      (COMPONENT_THREAT_MAP.map Prod.fst)) ∧
    (∀ kv, COMPONENT_THREAT_MAP.find? (fun p => p.1 == ct.toLower) = some kv →
      ∃ l, get_threats_for_component ct (some data) env cache = .ok l ∧
        l.Sublist data.entries ∧
        (∀ e, e ∈ l ↔ e ∈ data.entries ∧ kv.2.contains e.id = true)) ∧
    (get_threats_for_component ct none env cache =
      get_threats_for_component ct
        (some (load_dataset env none true cache).1) env cache) ∧
    (data.entries.map Entry.id = ASI_IDS → ct.toLower = "llm_agent" →
      Except.map (fun l => l.map Entry.id)
        (get_threats_for_component ct (some data) env cache)
        = .ok ["ASI01", "ASI05", "ASI06", "ASI10"]) := by
  refine ⟨?_, ?_, ?_, ?_, ?_⟩
  · intro hc
    simp only [List.contains_eq_any_beq, List.any_eq_false, beq_iff_eq] at hc
    have hnone : COMPONENT_THREAT_MAP.find? (fun p => p.1 == ct.toLower) = none := by
      apply List.find?_eq_none.mpr
      intro kv hkv
      simp only [beq_iff_eq]
      intro heq
      exact hc kv.1 (List.mem_map_of_mem Prod.fst hkv) heq.symm
    simp [get_threats_for_component, hnone]
  · exact py_sorted_perm _
  · intro kv hkv
    refine ⟨data.entries.filter (fun e => kv.2.contains e.id), ?_,
      List.filter_sublist _, fun e => List.mem_filter⟩
    simp [get_threats_for_component, hkv]
  · rcases hf : COMPONENT_THREAT_MAP.find? (fun p => p.1 == ct.toLower) with _ | kv <;>
      simp [get_threats_for_component, hf]
  · intro hids hct
    have hf : COMPONENT_THREAT_MAP.find? (fun p => p.1 == ct.toLower) =
        some ("llm_agent", ["ASI01", "ASI05", "ASI06", "ASI10"]) := by
      rw [hct]
      rfl
    simp only [get_threats_for_component, hf, Except.map]
    rw [map_id_filter (fun s => (["ASI01", "ASI05", "ASI06", "ASI10"] : List String).contains s)
      data.entries, hids]
    rfl

/-- Claim C1 witness: on the canonical sample dataset, `"LLM_Agent"` is
lower-cased and yields the four mapped ids in canonical order, while an
unknown type fails with the vocabulary-listing message. -/
theorem c1_get_threats_for_component_contract_witness :
    Except.map (fun l => l.map Entry.id)
      (get_threats_for_component "LLM_Agent" (some sample_dataset) sample_env none)
      = .ok ["ASI01", "ASI05", "ASI06", "ASI10"] ∧
    get_threats_for_component "nonexistent_type" (some sample_dataset) sample_env none
      = .error (unknown_component_msg "nonexistent_type") := by
  have hlow : "LLM_Agent".toLower = "llm_agent" := by
    simp [String.toLower, String.map_eq]
  have hlow2 : "nonexistent_type".toLower = "nonexistent_type" := by
    simp [String.toLower, String.map_eq]
  constructor
  · exact (c1_get_threats_for_component_contract "LLM_Agent" sample_dataset
      sample_env none).2.2.2.2 rfl hlow
  · have h := (c1_get_threats_for_component_contract "nonexistent_type" sample_dataset
      sample_env none).1 (by rw [hlow2]; decide)
    rw [hlow2] at h
    exact h

/-- Claim C4 counterexample: on a loaded entry list containing "ASI01"
twice, the bulk mapping keeps the last assignment while the per-entry
accessor returns the first match, so the two disagree. -/
theorem c4_roundtrip_counterexample :
    dict_getitem (get_asi_to_llm_mapping [dup_first, dup_second]) "ASI01"
      = some ["LLM-B"] ∧
    get_related_llm_entries "ASI01" [dup_first, dup_second] = .ok ["LLM-A"] ∧
    dict_getitem (get_asi_to_llm_mapping [dup_first, dup_second]) "ASI01"
      ≠ Except.toOption (get_related_llm_entries "ASI01" [dup_first, dup_second]) := by
  have h1 : dict_getitem (get_asi_to_llm_mapping [dup_first, dup_second]) "ASI01"
      = some ["LLM-B"] := by
    simp [dict_getitem, get_asi_to_llm_mapping, dup_first, dup_second]
  have h2 : get_related_llm_entries "ASI01" [dup_first, dup_second] = .ok ["LLM-A"] := by
    simp [get_related_llm_entries, get_entry, dup_first, dup_second,
      String.toUpper, String.map_eq]
  refine ⟨h1, h2, ?_⟩
  rw [h1, h2]
  simp [Except.toOption]

/-- When the entry ids are duplicate-free, the last-assignment dict lookup
coincides with the first-match scan. -/
theorem dict_getitem_nodup (entries : List Entry) (k : String)
    (hnd : (entries.map Entry.id).Nodup) :
    dict_getitem (get_asi_to_llm_mapping entries) k =
      (entries.find? (fun e => e.id == k)).map (fun e => e.related_llm_entries) := by
  induction entries with
  | nil => rfl
  | cons e t ih =>
    have hnotin : e.id ∉ t.map Entry.id := (List.nodup_cons.mp hnd).1
    have hnd' : (t.map Entry.id).Nodup := (List.nodup_cons.mp hnd).2
    by_cases hk : e.id = k
    · subst hk
      rw [List.find?_cons_of_pos _ (by simp)]
      have hnone : (t.map fun e0 => (e0.id, e0.related_llm_entries)).reverse.find?
          (fun kv => kv.1 == e.id) = none := by
        apply List.find?_eq_none.mpr
        intro kv hkv
        simp only [List.mem_reverse, List.mem_map] at hkv
        obtain ⟨e0, he0, rfl⟩ := hkv
        simp only [beq_iff_eq]
        intro heq
        exact hnotin (heq ▸ List.mem_map_of_mem Entry.id he0)
      simp [dict_getitem, get_asi_to_llm_mapping, List.find?_append, hnone]
    · rw [List.find?_cons_of_neg _ (by simp [hk])]
      rw [← ih hnd']
      have h1 : List.find? (fun kv => kv.1 == k)
          [(e.id, e.related_llm_entries)] = none := by
        simp [hk]
      simp [dict_getitem, get_asi_to_llm_mapping, List.find?_append, h1]

/-- Claim C4 amended: under the dataset id-uniqueness invariant (no two
entries share an id), for every canonical id matched by some entry the bulk
mapping and the per-entry accessor agree. -/
theorem c4_roundtrip_amended (asi_id : String) (entries : List Entry)
    (hnd : (entries.map Entry.id).Nodup) (hid : asi_id ∈ ASI_IDS) :
    ∀ e, get_entry asi_id entries = some e →
      dict_getitem (get_asi_to_llm_mapping entries) asi_id
        = some e.related_llm_entries ∧
      get_related_llm_entries asi_id entries = .ok e.related_llm_entries := by
  have hup : asi_id.toUpper = asi_id := by
    fin_cases hid <;> simp [String.toUpper, String.map_eq]
  intro e he
  have hfind : entries.find? (fun e0 => e0.id == asi_id) = some e := by
    rw [get_entry, hup] at he
    exact he
  constructor
  · rw [dict_getitem_nodup entries asi_id hnd, hfind]
    rfl
  · simp [get_related_llm_entries, he]

/-- Claim C4 amended witness: on the canonical 10-entry list the mapping and
the accessor agree at "ASI01". -/
theorem c4_roundtrip_amended_witness :
    dict_getitem (get_asi_to_llm_mapping canonical_entries) "ASI01"
      = some ["llm ASI01"] ∧
    get_related_llm_entries "ASI01" canonical_entries = .ok ["llm ASI01"] :=
  c4_roundtrip_amended "ASI01" canonical_entries (by decide) (by decide)
    ⟨"ASI01", "title ASI01", ["mit ASI01"], [], ["llm ASI01"]⟩
    (by simp [get_entry, canonical_entries, ASI_IDS, String.toUpper, String.map_eq])

/-- Claim C5 counterexample: on a file whose top level is a bare array,
`data.get("entries", data)` raises `AttributeError` instead of returning the
parsed array, so `load_entries` is not tolerant of the bare-array shape. -/
theorem c5_load_entries_counterexample :
    load_entries_with_path (Json.arr [Json.str "entry"]) =
      .error "AttributeError: the parsed value has no .get method" ∧
    ∀ v, load_entries_with_path (Json.arr [Json.str "entry"]) ≠ Except.ok v := by
  refine ⟨rfl, ?_⟩
  intro v h
  simp [load_entries_with_path] at h

/-- Claim C5 amended: with an explicit path, `load_entries` parses the file
and — when the top level is an object — returns its `"entries"` value, or
the whole object when that key is absent; a bare-array top level is an
error (`AttributeError`), not a tolerated shape; with no path it delegates
to `load_dataset()` and returns its `entries` field. -/
theorem c5_load_entries_amended (parsed : Json) (env : Env)
    (cache : Option Dataset) :
    (∀ fields v, parsed = Json.obj fields →
      fields.find? (fun kv => kv.1 == "entries") = some v →
      load_entries_with_path parsed = .ok v.2) ∧
    (∀ fields, parsed = Json.obj fields →
      fields.find? (fun kv => kv.1 == "entries") = none →
      load_entries_with_path parsed = .ok (Json.obj fields)) ∧
    (∀ items, parsed = Json.arr items →
      (load_entries_with_path parsed).isOk = false) ∧
    ((load_entries_default env cache).1 = (load_dataset env none true cache).1.entries) := by
  refine ⟨?_, ?_, ?_, rfl⟩
  · intro fields v hp hf
    subst hp
    simp [load_entries_with_path, json_get, hf]
  · intro fields hp hf
    subst hp
    simp [load_entries_with_path, json_get, hf]
  · intro items hp
    subst hp
    simp [load_entries_with_path, Except.isOk, Except.toBool]

/-- Claim C5 amended witness: both object shapes succeed, the bare array
does not, and the no-path case projects the loaded dataset's entries. -/
theorem c5_load_entries_amended_witness :
    load_entries_with_path (Json.obj [("metadata", Json.str "m"),
        ("entries", Json.arr [Json.str "e1"])]) = .ok (Json.arr [Json.str "e1"]) ∧
    load_entries_with_path (Json.obj [("metadata", Json.str "m")])
      = .ok (Json.obj [("metadata", Json.str "m")]) ∧
    (load_entries_with_path (Json.arr [])).isOk = false ∧
    (load_entries_default sample_env none).1
      = (load_dataset sample_env none true none).1.entries :=
  ⟨(c5_load_entries_amended (Json.obj [("metadata", Json.str "m"),
        ("entries", Json.arr [Json.str "e1"])]) sample_env none).1
      [("metadata", Json.str "m"), ("entries", Json.arr [Json.str "e1"])]
      ("entries", Json.arr [Json.str "e1"]) rfl rfl,
   (c5_load_entries_amended (Json.obj [("metadata", Json.str "m")])
      sample_env none).2.1 [("metadata", Json.str "m")] rfl rfl,
   (c5_load_entries_amended (Json.arr []) sample_env none).2.2.1 [] rfl,
   (c5_load_entries_amended (Json.arr []) sample_env none).2.2.2⟩
